import Mathlib

/-!
Verification of the mailingo dual-format email rendering pipeline.

Shallow embedding of the `mailingo` Go package: the translation
resolution helper (`translate`), the translation projector
(`processTranslations`), the two serializers (`GenerateHTML`,
`GeneratePlainText`) and the constructor (`New`).

External collaborators are modelled at their interface boundary:
* a go-i18n localizer is a partial lookup `String → Option String`
  (message id to localized text, `none` on lookup miss);
* the bundle is a family of localizers indexed by the language tag;
* an `html/template` parsed template is a function from the rendering
  context to `Except String String` (execution may fail);
* template parsing is a function `String → Except String parsedTemplate`;
* an `fs.FS` file read is a function `String → Except String String`.

Byte slices are lists of naturals; Go `map[string]string` fields that are
only carried through untouched are association lists.
-/

namespace Mailingo

/-- A go-i18n localizer at its interface boundary: message id to
localized text, `none` when localization fails (missing message). -/
def Localizer : Type := String → Option String

/-- A go-i18n bundle at its interface boundary: language tag to
localizer.  A freshly created bundle with no catalog loaded misses on
every key. -/
def Bundle : Type := String → String → Option String

/-- Product represents the product/company information displayed in emails. -/
structure Product where
  Name : String
  Link : String
  Logo : String
  Copyright : String
  deriving Repr, DecidableEq

/-- Theme defines the color scheme and styling for the email. -/
structure Theme where
  PrimaryColor : String
  BackgroundColor : String
  TextColor : String
  ButtonColor : String
  ButtonTextColor : String
  deriving Repr, DecidableEq

/-- Entry represents a key-value pair entry. -/
structure Entry where
  Key : String
  Value : String
  deriving Repr, DecidableEq

/-- Columns defines custom column properties (Go `map[string]string`,
modelled as association lists; only carried through, never consulted). -/
structure Columns where
  CustomWidth : List (String × String)
  CustomAlignment : List (String × String)
  deriving Repr, DecidableEq

/-- Table represents tabular data in the email. -/
structure Table where
  Data : List (List Entry)
  Columns : Columns
  deriving Repr, DecidableEq

/-- Button represents a clickable button in the email. -/
structure Button where
  Text : String
  Link : String
  Color : String
  deriving Repr, DecidableEq

/-- Action represents a call-to-action button with instructions. -/
structure Action where
  Instructions : String
  Button : Button
  InvertedButton : Bool
  deriving Repr, DecidableEq

/-- Attachment represents a file attachment displayed as a download
link (`Type` is a reserved word in Lean, hence the guillemets). -/
structure Attachment where
  Name : String
  URL : String
  Size : String
  «Type» : String
  deriving Repr, DecidableEq

/-- SMTPAttachment represents an actual file to be attached when
sending via SMTP; content bytes are naturals below 256 in Go, but the
serializers never read them so the bound is irrelevant here. -/
structure SMTPAttachment where
  Filename : String
  Content : List Nat
  ContentType : String
  deriving Repr, DecidableEq

/-- Body contains the main content of the email. -/
structure Body where
  Name : String
  Intros : List String
  Dictionary : List Entry
  Table : Table
  Actions : List Action
  Outros : List String
  Attachments : List Attachment
  Greeting : String
  Signature : String
  Title : String
  deriving Repr, DecidableEq

/-- Email represents the complete email structure. -/
structure Email where
  Body : Body
  SMTPAttachments : List SMTPAttachment
  deriving Repr, DecidableEq

/-- The `Product` part of the context handed to the HTML template
(the `"Product"` sub-map built by `processTranslations`). -/
structure ProductData where
  Name : String
  Link : String
  Logo : String
  Copyright : String
  deriving Repr, DecidableEq

/-- The `"Table"` sub-map of the template context. -/
structure TableData where
  Data : List (List Entry)
  Columns : Columns
  deriving Repr, DecidableEq

/-- The `"Body"` sub-map of the template context: every translatable
field already resolved. -/
structure BodyData where
  Name : String
  Greeting : String
  Signature : String
  Title : String
  Intros : List String
  Dictionary : List Entry
  Table : TableData
  Actions : List Action
  Outros : List String
  Attachments : List Attachment
  deriving Repr, DecidableEq

/-- The full context handed to `template.Execute` by `GenerateHTML`
(the `map[string]interface\x7b\x7d` literal at the end of
`processTranslations`, as a structured record). -/
structure TemplateData where
  Product : ProductData
  Theme : Theme
  CustomCSS : String
  Body : BodyData
  deriving Repr, DecidableEq

/-- A parsed `html/template` at its interface boundary: executing it
against a context either yields the document or fails. -/
def ParsedTemplate : Type := TemplateData → Except String String

/-- Mailer is a multi-language email generator that supports i18n. -/
structure Mailer where
  bundle : Bundle
  product : Product
  theme : Theme
  template : ParsedTemplate
  customCSS : String

/-- Step 1 of the resolve policy: the reassignment
`if key == "" && defaultKey != "" \x7b key = defaultKey \x7d`
at the top of `translate`. -/
def substitutedKey (key defaultKey : String) : String :=
  if key = "" ∧ defaultKey ≠ "" then defaultKey else key

/-- Source `translate`: if the key is empty and a defaultKey
is provided, use the defaultKey; if the (possibly substituted) key is
still empty, return the empty string without attempting a lookup;
otherwise look the key up and fall back to the key itself on failure. -/
def translate (localizer : Localizer) (key defaultKey : String) : String :=
  let key := if key = "" ∧ defaultKey ≠ "" then defaultKey else key
  if key = "" then ""
  else
    match localizer key with
    | some result => result
    | none => key

/-- Source `processTranslations`: walk the email body and
product, resolving every translatable field through `translate`, and
assemble the template context. -/
def processTranslations (m : Mailer) (email : Email) (localizer : Localizer) :
    TemplateData :=
  let body := email.Body
  let intros := body.Intros.map (fun intro => translate localizer intro "")
  let outros := body.Outros.map (fun outro => translate localizer outro "")
  let dictionary := body.Dictionary.map (fun entry =>
    { Key := translate localizer entry.Key "", Value := entry.Value })
  let actions := body.Actions.map (fun action =>
    { Instructions := translate localizer action.Instructions ""
      Button :=
        { Text := translate localizer action.Button.Text ""
          Link := action.Button.Link
          Color := action.Button.Color }
      InvertedButton := action.InvertedButton })
  let tableData := body.Table.Data.map (fun row =>
    row.map (fun cell =>
      { Key := translate localizer cell.Key "", Value := cell.Value }))
  let attachments := body.Attachments.map (fun attachment => attachment)
  { Product :=
      { Name := m.product.Name
        Link := m.product.Link
        Logo := m.product.Logo
        Copyright := translate localizer m.product.Copyright "product.copyright" }
    Theme := m.theme
    CustomCSS := m.customCSS
    Body :=
      { Name := body.Name
        Greeting := translate localizer body.Greeting "greeting"
        Signature := translate localizer body.Signature "signature"
        Title := translate localizer body.Title ""
        Intros := intros
        Dictionary := dictionary
        Table := { Data := tableData, Columns := body.Table.Columns }
        Actions := actions
        Outros := outros
        Attachments := attachments } }

/-- Source `GenerateHTML`: build the localizer for the
requested language, process all translations, execute the template; on
failure return the empty document and a wrapped error. -/
def GenerateHTML (m : Mailer) (email : Email) (lang : String) :
    String × Option String :=
  let localizer := m.bundle lang
  let data := processTranslations m email localizer
  match m.template data with
  | .error err => ("", some ("failed to execute email template: " ++ err))
  | .ok doc => (doc, none)

/-! `GeneratePlainText` is a sequence of buffer writes; each comment
block of the source (Greeting, Title, Intros, Dictionary, Actions,
Outros, Attachments, Signature, Copyright) becomes one segment
definition, and the function is the concatenation of the segments in
the order the source writes them. -/

/-- The Greeting block: `"%s %s,\n\n"` of the resolved greeting and
the recipient name. -/
def greetingSeg (localizer : Localizer) (body : Body) : String :=
  translate localizer body.Greeting "greeting" ++ " " ++ body.Name ++ ",\n\n"

/-- The Title block: emitted only when the raw `Title` field is
non-empty, as `"%s\n\n"` of the resolved title. -/
def titleSeg (localizer : Localizer) (body : Body) : String :=
  if body.Title ≠ "" then translate localizer body.Title "" ++ "\n\n" else ""

/-- The introduction paragraphs: each resolved intro as `"%s\n\n"`. -/
def introsSeg (localizer : Localizer) (intros : List String) : String :=
  String.join (intros.map (fun intro => translate localizer intro "" ++ "\n\n"))

/-- The dictionary block: each entry as `"%s: %s\n"` with the key
resolved and the value literal, then one blank line if the dictionary
was non-empty. -/
def dictSeg (localizer : Localizer) (dictionary : List Entry) : String :=
  String.join (dictionary.map (fun entry =>
    translate localizer entry.Key "" ++ ": " ++ entry.Value ++ "\n")) ++
  (if dictionary.length > 0 then "\n" else "")

/-- The actions block: each action as `"%s\n%s: %s\n\n"` of the
resolved instructions, resolved button text and literal link. -/
def actionsSeg (localizer : Localizer) (actions : List Action) : String :=
  String.join (actions.map (fun action =>
    translate localizer action.Instructions "" ++ "\n" ++
    translate localizer action.Button.Text "" ++ ": " ++
    action.Button.Link ++ "\n\n"))

/-- The closing paragraphs: each resolved outro as `"%s\n\n"`. -/
def outrosSeg (localizer : Localizer) (outros : List String) : String :=
  String.join (outros.map (fun outro => translate localizer outro "" ++ "\n\n"))

/-- One display attachment: `"  - <Name>"`, the parenthesised
type/size group under the source's nested emptiness tests, then
`"\n    <URL>\n"`. -/
def attachmentLine (attachment : Attachment) : String :=
  "  - " ++ attachment.Name ++
  (if attachment.Type ≠ "" ∨ attachment.Size ≠ "" then
    " (" ++
    (if attachment.Type ≠ "" then attachment.Type else "") ++
    (if attachment.Size ≠ "" then
      (if attachment.Type ≠ "" then ", " else "") ++ attachment.Size
     else "") ++ ")"
   else "") ++
  "\n    " ++ attachment.URL ++ "\n"

/-- The attachments block: `"Attachments:\n"`, the attachment lines,
and a final blank line, all emitted only when the list is non-empty. -/
def attachmentsSeg (attachments : List Attachment) : String :=
  if attachments.length > 0 then
    "Attachments:\n" ++ String.join (attachments.map attachmentLine) ++ "\n"
  else ""

/-- The signature block: `"%s,\n%s\n\n"` of the resolved signature and
the product name. -/
def signatureSeg (localizer : Localizer) (body : Body) (productName : String) :
    String :=
  translate localizer body.Signature "signature" ++ ",\n" ++ productName ++ "\n\n"

/-- The copyright: the resolved copyright text, no trailing newline. -/
def copyrightSeg (localizer : Localizer) (copyright : String) : String :=
  translate localizer copyright "product.copyright"

/-- Source `GeneratePlainText`: the localizer for the
requested language followed by the nine buffer writes, with the Go
`(string, error)` pair modelled as `String × Option String`; the error
result is the literal `nil` of the source's single return. -/
def GeneratePlainText (m : Mailer) (email : Email) (lang : String) :
    String × Option String :=
  let localizer := m.bundle lang
  (greetingSeg localizer email.Body ++
   titleSeg localizer email.Body ++
   introsSeg localizer email.Body.Intros ++
   dictSeg localizer email.Body.Dictionary ++
   actionsSeg localizer email.Body.Actions ++
   outrosSeg localizer email.Body.Outros ++
   attachmentsSeg email.Body.Attachments ++
   signatureSeg localizer email.Body m.product.Name ++
   copyrightSeg localizer m.product.Copyright,
   none)

/-! ## Constructor and configuration -/

/-- Config holds the configuration for a Mailer (`options.Config`):
the parsed custom template, the custom template text, the custom
template filesystem (modelled as its `fs.ReadFile` interface) with its
path, and the custom CSS. -/
structure Config where
  CustomTemplate : Option ParsedTemplate
  CustomTemplateText : String
  CustomTemplateFS : Option (String → Except String String)
  CustomTemplatePath : String
  CustomCSS : String

/-- The zero value of `options.Config` that `New` starts from. -/
def Config.zero : Config :=
  { CustomTemplate := none
    CustomTemplateText := ""
    CustomTemplateFS := none
    CustomTemplatePath := ""
    CustomCSS := "" }

/-- A freshly created bundle has no catalog loaded: every lookup
misses. -/
def emptyBundle : Bundle := fun _ _ => none

/-- The Mailer literal returned at the end of `New`. -/
def mkMailer (product : Product) (theme : Theme) (tmpl : ParsedTemplate)
    (customCSS : String) : Mailer :=
  { bundle := emptyBundle
    product := product
    theme := theme
    template := tmpl
    customCSS := customCSS }

/-- The last branch of `New`: read the embedded default skeleton
(`templates/default.html`, whose content is the `defaultContent`
argument; the embedded read of a present file cannot fail) and parse
it.  Go panics on a parse failure; the panic is modelled as the
`Except` error. -/
def defaultTemplateBranch (parse : String → Except String ParsedTemplate)
    (defaultContent : String) (product : Product) (theme : Theme)
    (config : Config) : Except String Mailer :=
  match parse defaultContent with
  | .error e => .error ("failed to parse default template: " ++ e)
  | .ok tmpl => .ok (mkMailer product theme tmpl config.CustomCSS)

/-- The template-selection chain of `New`, operating on the final
`Config`: a pre-parsed `CustomTemplate` wins; otherwise a non-empty
`CustomTemplateText` is parsed; otherwise a present `CustomTemplateFS`
with a non-empty `CustomTemplatePath` is read and parsed; otherwise
the embedded default is used.  Construction-time panics of the source
are modelled as `Except` errors. -/
def NewFromConfig (parse : String → Except String ParsedTemplate)
    (defaultContent : String) (product : Product) (theme : Theme)
    (config : Config) : Except String Mailer :=
  match config.CustomTemplate with
  | some tmpl => .ok (mkMailer product theme tmpl config.CustomCSS)
  | none =>
    if config.CustomTemplateText ≠ "" then
      match parse config.CustomTemplateText with
      | .error e => .error ("failed to parse custom template: " ++ e)
      | .ok tmpl => .ok (mkMailer product theme tmpl config.CustomCSS)
    else
      match config.CustomTemplateFS with
      | some readFile =>
        if config.CustomTemplatePath ≠ "" then
          match readFile config.CustomTemplatePath with
          | .error e => .error ("failed to read custom template file: " ++ e)
          | .ok content =>
            match parse content with
            | .error e => .error ("failed to parse custom template file: " ++ e)
            | .ok tmpl => .ok (mkMailer product theme tmpl config.CustomCSS)
        else defaultTemplateBranch parse defaultContent product theme config
      | none => defaultTemplateBranch parse defaultContent product theme config

/-- Source `New`: apply the functional options in order to
the zero config, then select the template. -/
def New (parse : String → Except String ParsedTemplate)
    (defaultContent : String) (product : Product) (theme : Theme)
    (opts : List (Config → Config)) : Except String Mailer :=
  let config := opts.foldl (fun c opt => opt c) Config.zero
  NewFromConfig parse defaultContent product theme config

/-! ## State-passing renderings

The Go render methods take a pointer receiver; to settle the frame
claim the receiver is threaded explicitly through each step the method
performs, and each step returns the receiver it leaves behind.
`i18n.NewLocalizer` reads the bundle, `processTranslations` reads
product/theme/customCSS and calls the read-only `translate`,
`template.Execute` reads the parsed template; none of the source lines
assigns to a field of `m`, so each step returns its input receiver. -/

/-- Step `i18n.NewLocalizer(m.bundle, lang)`: reads the bundle, leaves the
receiver as found. -/
def newLocalizerS (m : Mailer) (lang : String) : Localizer × Mailer :=
  (m.bundle lang, m)

/-- Step `m.processTranslations(email, localizer)`: reads receiver fields,
leaves the receiver as found. -/
def processTranslationsS (m : Mailer) (email : Email) (localizer : Localizer) :
    TemplateData × Mailer :=
  (processTranslations m email localizer, m)

/-- Step `m.template.Execute(&buf, data)`: reads the parsed template,
leaves the receiver as found. -/
def executeTemplateS (m : Mailer) (data : TemplateData) :
    Except String String × Mailer :=
  (m.template data, m)

/-- Rendering `GenerateHTML` with the receiver threaded through its three steps:
the returned `Mailer` is the receiver after the call. -/
def GenerateHTMLS (m : Mailer) (email : Email) (lang : String) :
    (String × Option String) × Mailer :=
  let (localizer, m₁) := newLocalizerS m lang
  let (data, m₂) := processTranslationsS m₁ email localizer
  let (res, m₃) := executeTemplateS m₂ data
  match res with
  | .error err => (("", some ("failed to execute email template: " ++ err)), m₃)
  | .ok doc => ((doc, none), m₃)

/-- Rendering `GeneratePlainText` with the receiver threaded: the localizer
step, then the nine buffer writes (pure reads of the receiver's
product fields), returning the receiver after the call. -/
def GeneratePlainTextS (m : Mailer) (email : Email) (lang : String) :
    (String × Option String) × Mailer :=
  let (localizer, m₁) := newLocalizerS m lang
  ((greetingSeg localizer email.Body ++
    titleSeg localizer email.Body ++
    introsSeg localizer email.Body.Intros ++
    dictSeg localizer email.Body.Dictionary ++
    actionsSeg localizer email.Body.Actions ++
    outrosSeg localizer email.Body.Outros ++
    attachmentsSeg email.Body.Attachments ++
    signatureSeg localizer email.Body m₁.product.Name ++
    copyrightSeg localizer m₁.product.Copyright,
    none), m₁)

/-! ## Spec-side definitions

These definitions follow the spec's words, to be compared with the
definitions traced from the source. -/

/-- Spec wording for one display attachment line (§4.4 step 7): a line
`"  - <Name>"` optionally followed by `" (<Type>, <Size>)"` — Type and
Size joined by `", "` only when both present, parentheses present only
when at least one of Type/Size is present — then a line
`"    <URL>"`. -/
def specAttachmentLine (attachment : Attachment) : String :=
  "  - " ++ attachment.Name ++
  (if attachment.Type ≠ "" ∧ attachment.Size ≠ "" then
    " (" ++ attachment.Type ++ ", " ++ attachment.Size ++ ")"
   else if attachment.Type ≠ "" then " (" ++ attachment.Type ++ ")"
   else if attachment.Size ≠ "" then " (" ++ attachment.Size ++ ")"
   else "") ++
  "\n" ++ "    " ++ attachment.URL ++ "\n"

/-- Spec wording for the display-attachment group (§4.4 step 7): if
any display attachments exist, the header line `"Attachments:"`, the
attachment lines, and one blank line after the whole group; nothing
otherwise. -/
def specAttachmentBlock (attachments : List Attachment) : String :=
  if attachments = [] then ""
  else "Attachments:\n" ++ String.join (attachments.map specAttachmentLine) ++ "\n"

/-- Everything `GeneratePlainText` writes after the Title block; its
definition reads every body field except `Title`. -/
def restAfterTitle (m : Mailer) (email : Email) (lang : String) : String :=
  let localizer := m.bundle lang
  introsSeg localizer email.Body.Intros ++
  dictSeg localizer email.Body.Dictionary ++
  actionsSeg localizer email.Body.Actions ++
  outrosSeg localizer email.Body.Outros ++
  attachmentsSeg email.Body.Attachments ++
  signatureSeg localizer email.Body m.product.Name ++
  copyrightSeg localizer m.product.Copyright

/-- Everything `GeneratePlainText` writes before the attachments
block; its definition never reads `Attachments`. -/
def beforeAttachments (m : Mailer) (email : Email) (lang : String) : String :=
  let localizer := m.bundle lang
  greetingSeg localizer email.Body ++
  titleSeg localizer email.Body ++
  introsSeg localizer email.Body.Intros ++
  dictSeg localizer email.Body.Dictionary ++
  actionsSeg localizer email.Body.Actions ++
  outrosSeg localizer email.Body.Outros

/-- Everything `GeneratePlainText` writes after the attachments block;
its definition never reads `Attachments`. -/
def afterAttachments (m : Mailer) (email : Email) (lang : String) : String :=
  let localizer := m.bundle lang
  signatureSeg localizer email.Body m.product.Name ++
  copyrightSeg localizer m.product.Copyright

/-- DefaultTheme is the default color theme (similar to Hermes default
theme). -/
def DefaultTheme : Theme :=
  { PrimaryColor := "#3869D4"
    BackgroundColor := "#F2F4F6"
    TextColor := "#51545E"
    ButtonColor := "#3869D4"
    ButtonTextColor := "#FFFFFF" }

/-- FlatTheme is a flat minimalist theme (similar to Hermes flat
theme). -/
def FlatTheme : Theme :=
  { PrimaryColor := "#2F3133"
    BackgroundColor := "#FFFFFF"
    TextColor := "#2F3133"
    ButtonColor := "#2F3133"
    ButtonTextColor := "#FFFFFF" }

/-! ## Concrete fixtures

Closed sample values used by witnesses and counterexamples. -/

/-- A sample product. -/
def sampleProduct : Product :=
  { Name := "Acme", Link := "https://acme.example", Logo := "logo.png"
    Copyright := "" }

/-- An empty table. -/
def emptyTable : Table :=
  { Data := [], Columns := { CustomWidth := [], CustomAlignment := [] } }

/-- A minimal body with every list empty and every translatable field
empty, except that the title is the given string. -/
def sampleBody (title : String) : Body :=
  { Name := "", Intros := [], Dictionary := [], Table := emptyTable
    Actions := [], Outros := [], Attachments := []
    Greeting := "", Signature := "", Title := title }

/-- A template that always renders the same document. -/
def okTemplate : ParsedTemplate := fun _ => .ok "<html>doc</html>"

/-- A template whose execution always fails. -/
def failTemplate : ParsedTemplate := fun _ => .error "boom"

/-- A mailer with no catalog loaded and an always-succeeding
template. -/
def sampleMailer : Mailer :=
  { bundle := emptyBundle, product := sampleProduct, theme := DefaultTheme
    template := okTemplate, customCSS := "" }

/-- A mailer whose template execution always fails. -/
def failMailer : Mailer :=
  { bundle := emptyBundle, product := sampleProduct, theme := DefaultTheme
    template := failTemplate, customCSS := "" }

/-- A localizer whose catalog maps the message id `"t"` to the empty
localized text and misses on every other id (in go-i18n, a message
whose template renders to the empty string, e.g. a conditional
template). -/
def emptyTitleLocalizer : Localizer :=
  fun key => if key = "t" then some "" else none

/-- A mailer whose bundle resolves `"t"` to the empty string for every
language. -/
def emptyTitleMailer : Mailer :=
  { bundle := fun _ => emptyTitleLocalizer, product := sampleProduct
    theme := DefaultTheme, template := okTemplate, customCSS := "" }

/-- A product with empty name and copyright, to keep the
counterexample output small. -/
def blankProduct : Product := { Name := "", Link := "", Logo := "", Copyright := "" }

/-- The counterexample mailer: blank product, bundle resolving `"t"`
to the empty string. -/
def cexMailer : Mailer :=
  { bundle := fun _ => emptyTitleLocalizer, product := blankProduct
    theme := DefaultTheme, template := okTemplate, customCSS := "" }

/-- A parse function for witnesses: a text parses to the template that
renders that text. -/
def sampleParse : String → Except String ParsedTemplate :=
  fun text => .ok (fun _ => .ok text)

/-- A pre-parsed custom template for the constructor witness. -/
def sampleCustomTemplate : ParsedTemplate := fun _ => .ok "custom"

/-- A config carrying a pre-parsed template and a non-empty template
text, so that the priority between the two is observable. -/
def sampleConfig : Config :=
  { CustomTemplate := some sampleCustomTemplate
    CustomTemplateText := "<p>text</p>"
    CustomTemplateFS := none
    CustomTemplatePath := ""
    CustomCSS := "body \x7b color: red \x7d" }

/-- The template context built from an email and a language through
the mailer's bundle, i.e. the `data` argument `GenerateHTML` hands to
`template.Execute`. -/
def resolvedData (m : Mailer) (email : Email) (lang : String) : TemplateData :=
  processTranslations m email (m.bundle lang)

/-! ## Helper lemmas -/

/-- Unfolding of `translate` through the step-1 substitution. -/
theorem translate_eq_substituted (localizer : Localizer) (key defaultKey : String) :
    translate localizer key defaultKey =
      if substitutedKey key defaultKey = "" then ""
      else
        match localizer (substitutedKey key defaultKey) with
        | some result => result
        | none => substitutedKey key defaultKey := rfl

/-- With an empty default key no substitution happens. -/
theorem substitutedKey_empty_default (key : String) :
    substitutedKey key "" = key := by
  simp [substitutedKey]

/-- An empty field with no default key resolves to the empty string. -/
theorem translate_empty_no_default (localizer : Localizer) :
    translate localizer "" "" = "" := rfl

/-- The attachment line traced from the source equals the line the
spec describes, for every attachment. -/
theorem attachmentLine_eq_spec : attachmentLine = specAttachmentLine := by
  funext attachment
  by_cases ht : attachment.Type = "" <;> by_cases hs : attachment.Size = "" <;>
    simp [attachmentLine, specAttachmentLine, ht, hs, String.append_assoc]

/-- The attachments block traced from the source equals the block the
spec describes, for every attachment list. -/
theorem attachmentsSeg_eq_specBlock (attachments : List Attachment) :
    attachmentsSeg attachments = specAttachmentBlock attachments := by
  cases attachments with
  | nil => rfl
  | cons a as => simp [attachmentsSeg, specAttachmentBlock, attachmentLine_eq_spec]

/-! ## Claims -/

/-- C1: the translator resolve operation is total and follows the
four-step policy for every key, defaultKey and locale: an empty key
with a non-empty defaultKey substitutes the defaultKey (step 1), and
otherwise the key is kept; an empty substituted key yields the empty
string with no lookup (step 2); a catalog hit yields the localized
text (step 3); a lookup miss yields the substituted key itself
(step 4); and with no catalog loaded, `resolve(k, "", l) = k` for
every key `k` and locale `l`. -/
theorem translate_four_step_policy (localizer : Localizer)
    (key defaultKey lang : String) :
    (key = "" ∧ defaultKey ≠ "" → substitutedKey key defaultKey = defaultKey) ∧
    (¬(key = "" ∧ defaultKey ≠ "") → substitutedKey key defaultKey = key) ∧
    (substitutedKey key defaultKey = "" →
      translate localizer key defaultKey = "") ∧
    (∀ text, substitutedKey key defaultKey ≠ "" →
      localizer (substitutedKey key defaultKey) = some text →
      translate localizer key defaultKey = text) ∧
    (substitutedKey key defaultKey ≠ "" →
      localizer (substitutedKey key defaultKey) = none →
      translate localizer key defaultKey = substitutedKey key defaultKey) ∧
    translate (emptyBundle lang) key "" = key := by
  refine ⟨?_, ?_, ?_, ?_, ?_, ?_⟩
  · intro h; unfold substitutedKey; rw [if_pos h]
  · intro h; unfold substitutedKey; rw [if_neg h]
  · intro h; rw [translate_eq_substituted, if_pos h]
  · intro text h hloc; rw [translate_eq_substituted, if_neg h, hloc]
  · intro h hloc; rw [translate_eq_substituted, if_neg h, hloc]
  · rw [translate_eq_substituted, substitutedKey_empty_default]
    by_cases hk : key = ""
    · rw [if_pos hk, hk]
    · rw [if_neg hk]
      rfl

/-- Witness for C1: a key that is not in any catalog round-trips
unchanged when no catalog is loaded. -/
theorem translate_four_step_policy_witness :
    translate (emptyBundle "en") "custom.missing.key" "" = "custom.missing.key" :=
  (translate_four_step_policy (emptyBundle "en")
    "custom.missing.key" "" "en").2.2.2.2.2

/-- C2: two emails that differ only in their transport (SMTP)
attachments render identically through both serializers, for every
mailer and language: transport-attachment filenames, content bytes and
MIME types never influence either document. -/
theorem smtp_attachments_never_influence_output (m : Mailer) (e₁ e₂ : Email)
    (lang : String) (h : e₁.Body = e₂.Body) :
    GenerateHTML m e₁ lang = GenerateHTML m e₂ lang ∧
    GeneratePlainText m e₁ lang = GeneratePlainText m e₂ lang := by
  unfold GenerateHTML GeneratePlainText processTranslations
  rw [h]
  exact ⟨rfl, rfl⟩

/-- Witness for C2: adding a transport attachment with concrete
content bytes changes neither rendered document. -/
theorem smtp_attachments_never_influence_output_witness :
    GenerateHTML sampleMailer
        ⟨sampleBody "", [⟨"invoice.pdf", [37, 80, 68, 70], "application/pdf"⟩]⟩
        "en" =
      GenerateHTML sampleMailer ⟨sampleBody "", []⟩ "en" ∧
    GeneratePlainText sampleMailer
        ⟨sampleBody "", [⟨"invoice.pdf", [37, 80, 68, 70], "application/pdf"⟩]⟩
        "en" =
      GeneratePlainText sampleMailer ⟨sampleBody "", []⟩ "en" :=
  smtp_attachments_never_influence_output sampleMailer
    ⟨sampleBody "", [⟨"invoice.pdf", [37, 80, 68, 70], "application/pdf"⟩]⟩
    ⟨sampleBody "", []⟩ "en" rfl

/-- C3: for every email and language, each shared translatable field
resolves to the same string in the HTML context (built by
`processTranslations`) and in the plain-text serialization: every
string the plain-text segments emit is the corresponding field of the
resolved data, and the plain-text document is the concatenation of
those segments — the two paths differ only in layout. -/
theorem html_and_text_select_identical_strings (m : Mailer) (email : Email)
    (lang : String) :
    greetingSeg (m.bundle lang) email.Body =
      (resolvedData m email lang).Body.Greeting ++ " " ++
      (resolvedData m email lang).Body.Name ++ ",\n\n" ∧
    titleSeg (m.bundle lang) email.Body =
      (if email.Body.Title ≠ "" then
        (resolvedData m email lang).Body.Title ++ "\n\n"
       else "") ∧
    introsSeg (m.bundle lang) email.Body.Intros =
      String.join ((resolvedData m email lang).Body.Intros.map
        (fun text => text ++ "\n\n")) ∧
    dictSeg (m.bundle lang) email.Body.Dictionary =
      String.join ((resolvedData m email lang).Body.Dictionary.map
        (fun entry => entry.Key ++ ": " ++ entry.Value ++ "\n")) ++
      (if (resolvedData m email lang).Body.Dictionary.length > 0 then "\n"
       else "") ∧
    actionsSeg (m.bundle lang) email.Body.Actions =
      String.join ((resolvedData m email lang).Body.Actions.map
        (fun action => action.Instructions ++ "\n" ++ action.Button.Text ++
          ": " ++ action.Button.Link ++ "\n\n")) ∧
    outrosSeg (m.bundle lang) email.Body.Outros =
      String.join ((resolvedData m email lang).Body.Outros.map
        (fun text => text ++ "\n\n")) ∧
    attachmentsSeg email.Body.Attachments =
      attachmentsSeg (resolvedData m email lang).Body.Attachments ∧
    signatureSeg (m.bundle lang) email.Body m.product.Name =
      (resolvedData m email lang).Body.Signature ++ ",\n" ++
      (resolvedData m email lang).Product.Name ++ "\n\n" ∧
    copyrightSeg (m.bundle lang) m.product.Copyright =
      (resolvedData m email lang).Product.Copyright ∧
    (GeneratePlainText m email lang).1 =
      greetingSeg (m.bundle lang) email.Body ++
      titleSeg (m.bundle lang) email.Body ++
      introsSeg (m.bundle lang) email.Body.Intros ++
      dictSeg (m.bundle lang) email.Body.Dictionary ++
      actionsSeg (m.bundle lang) email.Body.Actions ++
      outrosSeg (m.bundle lang) email.Body.Outros ++
      attachmentsSeg email.Body.Attachments ++
      signatureSeg (m.bundle lang) email.Body m.product.Name ++
      copyrightSeg (m.bundle lang) m.product.Copyright := by
  refine ⟨rfl, rfl, ?_, ?_, ?_, ?_, ?_, rfl, rfl, rfl⟩
  · simp [introsSeg, resolvedData, processTranslations, List.map_map,
      Function.comp_def]
  · simp [dictSeg, resolvedData, processTranslations, List.map_map,
      Function.comp_def]
  · simp [actionsSeg, resolvedData, processTranslations, List.map_map,
      Function.comp_def]
  · simp [outrosSeg, resolvedData, processTranslations, List.map_map,
      Function.comp_def]
  · simp [resolvedData, processTranslations]

/-- C4: plain-text serialization never fails: for every mailer, email
and language the error component of the result is `nil`. -/
theorem generatePlainText_never_fails (m : Mailer) (email : Email)
    (lang : String) :
    (GeneratePlainText m email lang).2 = none := rfl

/-- C5 counterexample: the source tests the *raw* `Title` field, not
the resolved title.  With a catalog entry resolving `"t"` to the empty
string, both emails below have an empty resolved title, yet the email
whose raw title is `"t"` emits the title block (an extra blank line)
and the other does not — so emission is not determined by the resolved
title, refuting the claim as stated. -/
theorem title_emission_counterexample :
    translate emptyTitleLocalizer "t" "" = "" ∧
    translate emptyTitleLocalizer "" "" = "" ∧
    (GeneratePlainText cexMailer ⟨sampleBody "t", []⟩ "en").1 =
      "greeting ,\n\n\n\nsignature,\n\n\nproduct.copyright" ∧
    (GeneratePlainText cexMailer ⟨sampleBody "", []⟩ "en").1 =
      "greeting ,\n\nsignature,\n\n\nproduct.copyright" ∧
    (GeneratePlainText cexMailer ⟨sampleBody "t", []⟩ "en").1 ≠
      (GeneratePlainText cexMailer ⟨sampleBody "", []⟩ "en").1 := by
  have h₁ : (GeneratePlainText cexMailer ⟨sampleBody "t", []⟩ "en").1 =
      "greeting ,\n\n\n\nsignature,\n\n\nproduct.copyright" := rfl
  have h₂ : (GeneratePlainText cexMailer ⟨sampleBody "", []⟩ "en").1 =
      "greeting ,\n\nsignature,\n\n\nproduct.copyright" := rfl
  refine ⟨rfl, rfl, h₁, h₂, ?_⟩
  rw [h₁, h₂]
  decide

/-- C5 amended: in the plain-text output the title block — the
resolved title followed by a blank line — is emitted if and only if
the raw `Title` field (before resolution) is non-empty; the rest of
the document does not depend on `Title`.  (This coincides with the
claim's "resolved title non-empty" whenever no catalog entry resolves
to the empty string.) -/
theorem plaintext_title_block_iff_raw_title (m : Mailer) (email : Email)
    (lang : String) :
    (GeneratePlainText m email lang).1 =
      greetingSeg (m.bundle lang) email.Body ++
      ((if email.Body.Title ≠ "" then
          translate (m.bundle lang) email.Body.Title "" ++ "\n\n"
        else "") ++
        restAfterTitle m email lang) := by
  simp [GeneratePlainText, titleSeg, restAfterTitle, String.append_assoc]

/-- C6: the per-field default lookup keys: `Greeting` resolves with
default key `"greeting"`, `Signature` with `"signature"`, the product
copyright with `"product.copyright"`, while `Title`, intros, outros,
dictionary keys, table cell keys and action instructions/button texts
resolve with no default key, in both the HTML context and the
plain-text segments; with no default key an empty field resolves to
the empty string. -/
theorem per_field_default_keys (m : Mailer) (email : Email) (lang : String) :
    (resolvedData m email lang).Body.Greeting =
      translate (m.bundle lang) email.Body.Greeting "greeting" ∧
    (resolvedData m email lang).Body.Signature =
      translate (m.bundle lang) email.Body.Signature "signature" ∧
    (resolvedData m email lang).Product.Copyright =
      translate (m.bundle lang) m.product.Copyright "product.copyright" ∧
    (resolvedData m email lang).Body.Title =
      translate (m.bundle lang) email.Body.Title "" ∧
    (resolvedData m email lang).Body.Intros =
      email.Body.Intros.map (fun intro => translate (m.bundle lang) intro "") ∧
    (resolvedData m email lang).Body.Outros =
      email.Body.Outros.map (fun outro => translate (m.bundle lang) outro "") ∧
    (resolvedData m email lang).Body.Dictionary =
      email.Body.Dictionary.map (fun entry =>
        ⟨translate (m.bundle lang) entry.Key "", entry.Value⟩) ∧
    (resolvedData m email lang).Body.Table.Data =
      email.Body.Table.Data.map (fun row => row.map (fun cell =>
        ⟨translate (m.bundle lang) cell.Key "", cell.Value⟩)) ∧
    (resolvedData m email lang).Body.Actions =
      email.Body.Actions.map (fun action =>
        ⟨translate (m.bundle lang) action.Instructions "",
         ⟨translate (m.bundle lang) action.Button.Text "",
          action.Button.Link, action.Button.Color⟩,
         action.InvertedButton⟩) ∧
    greetingSeg (m.bundle lang) email.Body =
      translate (m.bundle lang) email.Body.Greeting "greeting" ++ " " ++
      email.Body.Name ++ ",\n\n" ∧
    signatureSeg (m.bundle lang) email.Body m.product.Name =
      translate (m.bundle lang) email.Body.Signature "signature" ++ ",\n" ++
      m.product.Name ++ "\n\n" ∧
    copyrightSeg (m.bundle lang) m.product.Copyright =
      translate (m.bundle lang) m.product.Copyright "product.copyright" ∧
    titleSeg (m.bundle lang) email.Body =
      (if email.Body.Title ≠ "" then
        translate (m.bundle lang) email.Body.Title "" ++ "\n\n"
       else "") ∧
    (∀ localizer : Localizer, translate localizer "" "" = "") :=
  ⟨rfl, rfl, rfl, rfl, rfl, rfl, rfl, rfl, rfl, rfl, rfl, rfl, rfl,
   fun _ => rfl⟩

/-- C7: the plain-text attachments block follows the spec's format
exactly: the segment traced from the source equals the spec-worded
block for every attachment list, the document decomposes around the
block (the parts before and after never read the attachment list), and
an empty list contributes nothing, header included. -/
theorem plaintext_attachments_block (m : Mailer) (email : Email)
    (lang : String) :
    (∀ attachments : List Attachment,
      attachmentsSeg attachments = specAttachmentBlock attachments) ∧
    (GeneratePlainText m email lang).1 =
      beforeAttachments m email lang ++
      (specAttachmentBlock email.Body.Attachments ++
        afterAttachments m email lang) ∧
    specAttachmentBlock [] = "" := by
  refine ⟨attachmentsSeg_eq_specBlock, ?_, rfl⟩
  simp [GeneratePlainText, beforeAttachments, afterAttachments,
    attachmentsSeg_eq_specBlock, String.append_assoc]

/-- C8: `GenerateHTML` fails exactly when executing the template
against the resolved context fails; on failure it returns the empty
document together with the wrapped execution error, and on success it
returns the produced document with a `nil` error. -/
theorem generateHTML_error_iff_template_fails (m : Mailer) (email : Email)
    (lang : String) :
    (∀ err, m.template (resolvedData m email lang) = .error err →
      GenerateHTML m email lang =
        ("", some ("failed to execute email template: " ++ err))) ∧
    (∀ doc, m.template (resolvedData m email lang) = .ok doc →
      GenerateHTML m email lang = (doc, none)) := by
  constructor
  · intro err h
    simp [GenerateHTML, resolvedData] at h ⊢
    rw [h]
  · intro doc h
    simp [GenerateHTML, resolvedData] at h ⊢
    rw [h]

/-- Witness for C8: a template that always fails yields the empty
document and the wrapped error; a template that always succeeds yields
its document and no error. -/
theorem generateHTML_error_iff_template_fails_witness :
    GenerateHTML failMailer ⟨sampleBody "", []⟩ "en" =
      ("", some "failed to execute email template: boom") ∧
    GenerateHTML sampleMailer ⟨sampleBody "", []⟩ "en" =
      ("<html>doc</html>", none) :=
  ⟨(generateHTML_error_iff_template_fails failMailer ⟨sampleBody "", []⟩
      "en").1 "boom" rfl,
   (generateHTML_error_iff_template_fails sampleMailer ⟨sampleBody "", []⟩
      "en").2 "<html>doc</html>" rfl⟩

/-- C9: neither render call mutates the mailer: threading the receiver
through every step of `GenerateHTML` and `GeneratePlainText` returns
it exactly as it was — bundle, product, theme, parsed template and
custom CSS included — while producing the same documents as the pure
renderings. -/
theorem render_calls_preserve_mailer (m : Mailer) (email : Email)
    (lang : String) :
    (GenerateHTMLS m email lang).2 = m ∧
    (GeneratePlainTextS m email lang).2 = m ∧
    (GenerateHTMLS m email lang).2.bundle = m.bundle ∧
    (GenerateHTMLS m email lang).2.product = m.product ∧
    (GenerateHTMLS m email lang).2.theme = m.theme ∧
    (GenerateHTMLS m email lang).2.template = m.template ∧
    (GenerateHTMLS m email lang).2.customCSS = m.customCSS ∧
    (GeneratePlainTextS m email lang).2.bundle = m.bundle ∧
    (GeneratePlainTextS m email lang).2.product = m.product ∧
    (GeneratePlainTextS m email lang).2.theme = m.theme ∧
    (GeneratePlainTextS m email lang).2.template = m.template ∧
    (GeneratePlainTextS m email lang).2.customCSS = m.customCSS ∧
    (GenerateHTMLS m email lang).1 = GenerateHTML m email lang ∧
    (GeneratePlainTextS m email lang).1 = GeneratePlainText m email lang := by
  have hH : GenerateHTMLS m email lang = (GenerateHTML m email lang, m) := by
    cases h : m.template (processTranslations m email (m.bundle lang)) <;>
      simp [GenerateHTMLS, GenerateHTML, newLocalizerS, processTranslationsS,
        executeTemplateS, h]
  have hP : GeneratePlainTextS m email lang =
      (GeneratePlainText m email lang, m) := rfl
  rw [hH, hP]
  exact ⟨rfl, rfl, rfl, rfl, rfl, rfl, rfl, rfl, rfl, rfl, rfl, rfl, rfl, rfl⟩

/-- C10: `New` selects the template by the fixed priority order of its
if/else chain: a pre-parsed `CustomTemplate` wins; otherwise a
non-empty `CustomTemplateText` is parsed and used; otherwise a present
`CustomTemplateFS` with a non-empty `CustomTemplatePath` is read,
parsed and used; only when none of these is supplied is the embedded
default skeleton parsed and used; and `New` is the chain applied to
the options folded over the zero config. -/
theorem new_template_priority (parse : String → Except String ParsedTemplate)
    (defaultContent : String) (product : Product) (theme : Theme)
    (config : Config) :
    (∀ tmpl, config.CustomTemplate = some tmpl →
      NewFromConfig parse defaultContent product theme config =
        .ok (mkMailer product theme tmpl config.CustomCSS)) ∧
    (∀ tmpl, config.CustomTemplate = none → config.CustomTemplateText ≠ "" →
      parse config.CustomTemplateText = .ok tmpl →
      NewFromConfig parse defaultContent product theme config =
        .ok (mkMailer product theme tmpl config.CustomCSS)) ∧
    (∀ e, config.CustomTemplate = none → config.CustomTemplateText ≠ "" →
      parse config.CustomTemplateText = .error e →
      NewFromConfig parse defaultContent product theme config =
        .error ("failed to parse custom template: " ++ e)) ∧
    (∀ readFile content tmpl, config.CustomTemplate = none →
      config.CustomTemplateText = "" →
      config.CustomTemplateFS = some readFile →
      config.CustomTemplatePath ≠ "" →
      readFile config.CustomTemplatePath = .ok content →
      parse content = .ok tmpl →
      NewFromConfig parse defaultContent product theme config =
        .ok (mkMailer product theme tmpl config.CustomCSS)) ∧
    (config.CustomTemplate = none → config.CustomTemplateText = "" →
      (config.CustomTemplateFS = none ∨ config.CustomTemplatePath = "") →
      NewFromConfig parse defaultContent product theme config =
        defaultTemplateBranch parse defaultContent product theme config) ∧
    (∀ tmpl, parse defaultContent = .ok tmpl →
      defaultTemplateBranch parse defaultContent product theme config =
        .ok (mkMailer product theme tmpl config.CustomCSS)) ∧
    (∀ opts, New parse defaultContent product theme opts =
      NewFromConfig parse defaultContent product theme
        (opts.foldl (fun c opt => opt c) Config.zero)) := by
  refine ⟨?_, ?_, ?_, ?_, ?_, ?_, fun opts => rfl⟩
  · intro tmpl h
    simp [NewFromConfig, h]
  · intro tmpl h htext hparse
    simp [NewFromConfig, h, htext, hparse]
  · intro e h htext hparse
    simp [NewFromConfig, h, htext, hparse]
  · intro readFile content tmpl h htext hfs hpath hread hparse
    simp [NewFromConfig, h, htext, hfs, hpath, hread, hparse]
  · intro h htext hor
    rcases hor with hfs | hpath
    · simp [NewFromConfig, h, htext, hfs]
    · cases hfs : config.CustomTemplateFS <;>
        simp [NewFromConfig, h, htext, hfs, hpath]
  · intro tmpl hparse
    simp [defaultTemplateBranch, hparse]

/-- Witness for C10: with a config supplying both a pre-parsed
template and a non-empty template text, the pre-parsed template wins;
with the zero config, the default skeleton is parsed and used. -/
theorem new_template_priority_witness :
    sampleConfig.CustomTemplateText ≠ "" ∧
    NewFromConfig sampleParse "<default/>" sampleProduct DefaultTheme
        sampleConfig =
      .ok (mkMailer sampleProduct DefaultTheme sampleCustomTemplate
        sampleConfig.CustomCSS) ∧
    New sampleParse "<default/>" sampleProduct DefaultTheme [] =
      NewFromConfig sampleParse "<default/>" sampleProduct DefaultTheme
        Config.zero :=
  ⟨by decide,
   (new_template_priority sampleParse "<default/>" sampleProduct DefaultTheme
      sampleConfig).1 sampleCustomTemplate rfl,
   (new_template_priority sampleParse "<default/>" sampleProduct DefaultTheme
      Config.zero).2.2.2.2.2.2 []⟩

end Mailingo
